import Mathlib

/-!
Verification of the NouMeal-be AI service (src/AI.py) against its
natural-language specification.

The Python module is shallowly embedded: pure computations become Lean
functions, the in-process session/profile dictionaries become an explicit
`Store` threaded through the handlers, and the two external collaborators
(the Clarifai image-recognition workflow and the OpenAI generation API),
together with the `json.loads` parser of the standard library, are modelled as oracle functions
collected in an `Oracles` structure.  Python runtime exceptions are
modelled with `Except String`; a caught exception corresponds to matching
on the `.error` branch.  Python floats are modelled as rationals.
-/

namespace NouMeal

/-- JSON-like dynamic values, mirroring the Python objects that flow through
the service (request bodies, parsed model output, handler results).  Python
ints and floats are kept distinct, as they are in Python. -/
inductive JVal where
  | null
  | bool (b : Bool)
  | int (n : ℤ)
  | num (q : ℚ)
  | str (s : String)
  | list (l : List JVal)
  | obj (fields : List (String × JVal))

/-- Association-list lookup used to model Python dict key access (dicts in
the service are small and ordered; insertion order is preserved). -/
def lookupField : List (String × JVal) → String → Option JVal
  | [], _ => none
  | (k, v) :: rest, key => if k = key then some v else lookupField rest key

/-- Replace the value of a key in place, or append it, mirroring Python
dict assignment (insertion order preserved, overwrite keeps position). -/
def setAssoc : List (String × JVal) → String → JVal → List (String × JVal)
  | [], key, v => [(key, v)]
  | (k, w) :: rest, key, v =>
    if k = key then (k, v) :: rest else (k, w) :: setAssoc rest key v

/-- Python truthiness for the modelled values. -/
def jTruthy : JVal → Bool
  | .null => false
  | .bool b => b
  | .int n => !(decide (n = 0))
  | .num q => !(decide (q = 0))
  | .str s => !s.data.isEmpty
  | .list l => !l.isEmpty
  | .obj l => !l.isEmpty

/-- Python `key in d` for a dict value; on non-dicts the call sites below
either never reach it or raise, which the callers model separately. -/
def jHasKeyB (v : JVal) (key : String) : Bool :=
  match v with
  | .obj fields => fields.any fun p => p.1 = key
  | _ => false

/-- Python `d.get(key, default)`: present keys win (even with null values);
calling `.get` on a non-dict raises `AttributeError`. -/
def jGetDE (v : JVal) (key : String) (d : JVal) : Except String JVal :=
  match v with
  | .obj fields => .ok ((lookupField fields key).getD d)
  | _ => .error "AttributeError: object has no attribute get"

/-- Python `d[key]`: `KeyError` when the key is absent, `TypeError` when the
value is not a dict. -/
def jIndex (v : JVal) (key : String) : Except String JVal :=
  match v with
  | .obj fields =>
    match lookupField fields key with
    | some x => .ok x
    | none => .error ("KeyError: " ++ key)
  | _ => .error "TypeError: value is not subscriptable by string"

/-- Python `d[key] = v`: raises `TypeError` on non-dicts. -/
def setField (v : JVal) (key : String) (x : JVal) : Except String JVal :=
  match v with
  | .obj fields => .ok (.obj (setAssoc fields key x))
  | _ => .error "TypeError: object does not support item assignment"

/-- Python `str()` as used in f-string interpolation.  Only string payloads
matter to any claim (the rendering feeds prompt text and error messages);
the container/number renderings are simplified placeholders. -/
def pyStr : JVal → String
  | .str s => s
  | .int n => toString n
  | .num q => toString q
  | .bool true => "True"
  | .bool false => "False"
  | .null => "None"
  | .list _ => "[...]"
  | .obj _ => "\x7b...\x7d"

/-- Python `str.strip()`. -/
def pyStrip (s : String) : String :=
  String.mk (((s.data.dropWhile Char.isWhitespace).reverse.dropWhile
    Char.isWhitespace).reverse)

/-- Python `str.split(c)` for a single-character separator. -/
def splitOnChar (c : Char) : List Char → List (List Char)
  | [] => [[]]
  | x :: xs =>
    let r := splitOnChar c xs
    if x = c then [] :: r
    else ((x :: r.headD []) :: r.tail)

/-- Python `str.split(sep)` for a non-empty multi-character separator
(used for the markdown fence extraction). -/
def splitOnSeq (sep : List Char) (hs : sep ≠ []) : List Char → List Char → List (List Char)
  | [], acc => [acc.reverse]
  | x :: xs, acc =>
    if sep.isPrefixOf (x :: xs) then
      acc.reverse :: splitOnSeq sep hs ((x :: xs).drop sep.length) []
    else splitOnSeq sep hs xs (x :: acc)
termination_by l _ => l.length
decreasing_by
  · simp only [List.length_drop, List.length_cons]
    have : 0 < sep.length := List.length_pos.mpr hs
    omega
  · simp only [List.length_cons]
    omega

/-- Python `sep in s` (substring test) together with `s.split(sep)`. -/
def splitOnStr (sep : String) (s : String) (hs : sep.data ≠ []) : List String :=
  (splitOnSeq sep.data hs s.data []).map String.mk

/-- Python `"," in s` followed by `s.split(",")[1]`: strips an optional
data-URI prefix from a base64 payload (AI.py lines 168-169 and 227-228). -/
def stripDataUri (s : String) : String :=
  if s.data.contains ',' then String.mk ((splitOnChar ',' s.data).getD 1 []) else s

/-- Python `s[-n:]`: the most recent `n` entries of a list. -/
def lastN (n : Nat) (l : List α) : List α := l.drop (l.length - n)

/-- The element check of Python `str.join`: every item must be a string. -/
def strItems : List JVal → Except String (List String)
  | [] => .ok []
  | JVal.str s :: rest =>
    match strItems rest with
    | .ok l => .ok (s :: l)
    | .error e => .error e
  | _ :: _ => .error "TypeError: sequence item expected str instance"

/-- Python `", ".join(x)`: joins a list of strings, iterates the characters
of a string, and raises `TypeError` otherwise. -/
def pyJoin (sep : String) : JVal → Except String String
  | .list l =>
    match strItems l with
    | .ok items => .ok (String.intercalate sep items)
    | .error e => .error e
  | .str s => .ok (String.intercalate sep (s.data.map fun c => String.mk [c]))
  | _ => .error "TypeError: can only join an iterable"

/-- Python `for x in v`: lists iterate elements, strings iterate characters,
dicts iterate keys; other values raise `TypeError`. -/
def asIterable : JVal → Except String (List JVal)
  | .list l => .ok l
  | .str s => .ok (s.data.map fun c => JVal.str (String.mk [c]))
  | .obj fields => .ok (fields.map fun p => JVal.str p.1)
  | _ => .error "TypeError: object is not iterable"

/-! ### Numeric model

Confidence scores are Python floats; they are embedded as rationals.
Constants are built with the explicit `Rat` constructor so that kernel
reduction works; `half_eq` checks the embedding against the literal 0.5
of the source. -/

/-- The literal 0.5 used as the fixed confidence threshold (AI.py line 202). -/
def half : ℚ := ⟨1, 2, by decide, by decide⟩

theorem half_eq : half = 1/2 := by
  rw [half, Rat.mk'_eq_divInt]
  norm_num [Rat.divInt_eq_div]

/-- Python `round` ties-to-even on an exact rational. -/
def roundHalfEven (x : ℚ) : ℤ :=
  let f := ⌊x⌋
  let r := x - f
  if r < half then f
  else if half < r then f + 1
  else if f % 2 = 0 then f else f + 1

/-- Python `round(x, 2)`. -/
def round2 (x : ℚ) : ℚ := (roundHalfEven (x * 100) : ℚ) / 100

/-- The percentage stored for a recognized concept:
`round(concept.value * 100, 2)` (AI.py line 205). -/
def pctOf (v : ℚ) : ℚ := round2 (v * 100)

/-! ### Recognition Adapter (recognize_food_with_clarifai, AI.py 166-219) -/

/-- A Clarifai concept: a label with a confidence value in [0,1]. -/
structure Concept where
  name : String
  value : ℚ
deriving DecidableEq

/-- One output of the Clarifai workflow result (the `output.data.concepts`
path is collapsed into a `concepts` field). -/
structure COutput where
  concepts : List Concept
deriving DecidableEq

/-- One element of `post_workflow_response.results`. -/
structure WorkflowResult where
  outputs : List COutput
deriving DecidableEq

/-- The Clarifai response: a status code plus workflow results.  A transport,
auth or protocol failure of the call is an `Except.error` around this type. -/
structure ClarifaiResponse where
  statusCode : ℤ
  results : List WorkflowResult
deriving DecidableEq

/-- The numeric value of `status_code_pb2.SUCCESS`. -/
def SUCCESS_CODE : ℤ := 10000

/-- An entry of the adapter output: `{"name": ..., "confidence": ...}`. -/
structure Food where
  name : String
  confidence : ℚ
deriving DecidableEq

/-- Building one output entry from a concept (AI.py lines 203-206). -/
def entryOf (c : Concept) : Food := ⟨c.name, pctOf c.value⟩

/-- The `detected_foods` accumulation loop (AI.py lines 197-206): traverse
outputs and concepts in order, keeping concepts with value strictly above
0.5.  The `if output.data.concepts:` guard is behaviourally the empty-list
case of the inner loop. -/
def detectedFoods (outputs : List COutput) : List Food :=
  outputs.flatMap fun o => (o.concepts.filter fun c => half < c.value).map entryOf

/-- The dedup loop over `detected_foods` (AI.py lines 208-213): first
occurrence of a name wins, later duplicates are dropped. -/
def dedupFirst (seen : List String) : List Food → List Food
  | [] => []
  | f :: rest =>
    if f.name ∈ seen then dedupFirst seen rest
    else f :: dedupFirst (f.name :: seen) rest

/-- Processing of the Clarifai response inside the adapter `try`
(AI.py lines 193-219): a failed call, a non-success status (which raises and
is caught), or an empty `results` (IndexError, caught) all yield the empty
list; otherwise the first result is filtered and deduplicated. -/
def processResponse (resp : Except String ClarifaiResponse) : List Food :=
  match resp with
  | .error _ => []
  | .ok r =>
    if r.statusCode ≠ SUCCESS_CODE then []
    else
      match r.results with
      | [] => []
      | res :: _ => dedupFirst [] (detectedFoods res.outputs)

/-! ### External collaborators as oracles

The network calls (Clarifai workflow, OpenAI chat/vision completions) and
the standard-library JSON parser are modelled as pure oracle functions.
`clarifai` absorbs base64 decoding and the gRPC call, returning either the
response or the raised exception.  `intentLLM` and `chatLLM` absorb the
prompt-template assembly of the corresponding call sites and receive the
dynamic data the source interpolates (message, images, sliced history);
`vision` and `text` receive the fully-built prompt string. -/
structure Oracles where
  clarifai : String → Except String ClarifaiResponse
  vision : String → List String → Nat → Except String String
  text : String → String → Nat → Except String String
  intentLLM : String → List JVal → List JVal → Except String String
  chatLLM : List JVal → Except String String
  parse : String → Option JVal

/-- The adapter `recognize_food_with_clarifai` (AI.py 166-219).  A non-string
argument (for example `None` from `params.get("image")`) raises inside the
`try` and is caught, yielding the empty list. -/
def recognize_food_with_clarifai (o : Oracles) (image : JVal) : List Food :=
  match image with
  | .str s => processResponse (o.clarifai (stripDataUri s))
  | _ => []

/-- Image normalization in `call_openai_vision` (AI.py 226-230): strip an
optional data-URI prefix, then add the jpeg prefix when missing.  Non-string
elements raise a `TypeError` inside the call, re-raised as a vision error. -/
def normalizeImg : JVal → Except String String
  | .str s =>
    let s1 := stripDataUri s
    if "data:image".data.isPrefixOf s1.data then .ok s1
    else .ok ("data:image/jpeg;base64," ++ s1)
  | _ => .error "TypeError: argument of type NoneType is not iterable"

/-- Embedding of `call_openai_vision` (AI.py 222-247): any exception is wrapped and
re-raised with the `OpenAI Vision Error:` prefix. -/
def call_openai_vision (o : Oracles) (prompt : String) (images : List JVal)
    (max_tokens : Nat) : Except String String :=
  match images.mapM normalizeImg with
  | .error e => .error ("OpenAI Vision Error: " ++ e)
  | .ok imgs =>
    match o.vision prompt imgs max_tokens with
    | .ok s => .ok (pyStrip s)
    | .error e => .error ("OpenAI Vision Error: " ++ e)

/-- Embedding of `call_openai_text` (AI.py 250-263). -/
def call_openai_text (o : Oracles) (prompt : String) (model : String)
    (max_tokens : Nat) : Except String String :=
  match o.text prompt model max_tokens with
  | .ok s => .ok (pyStrip s)
  | .error e => .error ("OpenAI API error: " ++ e)

/-- A structured `{error: message}` result. -/
def errObj (msg : String) : JVal := .obj [("error", .str msg)]

/-- A `detected_foods` entry embedded back into a JSON value. -/
def foodJ (f : Food) : JVal :=
  .obj [("name", .str f.name), ("confidence", .num f.confidence)]

/-! ### Internal capability operations (AI.py 374-505) -/

/-- Embedding of `internal_analyze_food` (AI.py 374-398). -/
def internal_analyze_food (o : Oracles) (image health_condition dietary_goals : JVal) :
    Except String JVal :=
  let detected := recognize_food_with_clarifai o image
  match detected with
  | [] => .ok (errObj "Không nhận diện được món ăn")
  | _ =>
    let food_list := String.intercalate ", "
      (detected.map fun f => f.name ++ " (" ++ toString f.confidence ++ "%)")
    let prompt := "Phân tích món ăn cho người " ++ pyStr health_condition ++
      ", mục tiêu " ++ pyStr dietary_goals ++ ".\nMón đã nhận diện: " ++ food_list ++
      "\n\nTrả lời ngắn gọn:\n1. Xác nhận món ăn\n2. Calo và dinh dưỡng chính\n3. Đánh giá phù hợp (⭐ 1-5)\n4. Ưu/nhược điểm\n5. Gợi ý cải thiện"
    match call_openai_vision o prompt [image] 1500 with
    | .error e => .error e
    | .ok analysis =>
      .ok (.obj [("detected_foods", .list (detected.map foodJ)),
        ("analysis", .str analysis),
        ("health_condition", health_condition),
        ("dietary_goals", dietary_goals)])

/-- Embedding of `internal_compare_foods` (AI.py 401-426).  Note: no minimum-image-count
validation happens here; the per-dish recognition runs for however many
images arrive. -/
def internal_compare_foods (o : Oracles) (images health_condition : JVal) :
    Except String JVal :=
  match asIterable images with
  | .error e => .error e
  | .ok imgs =>
    let pairs := imgs.enum.map fun p => ((p.1 : ℤ) + 1, recognize_food_with_clarifai o p.2)
    let all_detected := pairs.map fun p =>
      JVal.obj [("dish_number", .int p.1), ("foods", .list (p.2.map foodJ))]
    let dishes_summary := String.intercalate "\n" (pairs.map fun p =>
      "- Món " ++ toString p.1 ++ ": " ++ String.intercalate ", " (p.2.map (·.name)))
    let prompt := "So sánh " ++ toString imgs.length ++ " món ăn cho người " ++
      pyStr health_condition ++ ".\nCác món: " ++ dishes_summary ++
      "\n\nTrả về:\n1. Bảng so sánh calo, protein, carb\n2. Xếp hạng từ tốt → kém\n3. Khuyến nghị nên chọn món nào"
    match call_openai_vision o prompt imgs 2000 with
    | .error e => .error e
    | .ok comparison =>
      .ok (.obj [("detected_foods", .list all_detected),
        ("comparison", .str comparison),
        ("total_foods", .int (imgs.length : ℤ))])

/-- Embedding of `internal_track_calories` (AI.py 429-459). -/
def internal_track_calories (o : Oracles) (images target_calories health_condition : JVal) :
    Except String JVal :=
  match asIterable images with
  | .error e => .error e
  | .ok imgs =>
    let meal_names := ["Sáng", "Trưa", "Tối", "Phụ"]
    let daily := imgs.enum.map fun p =>
      let meal_name := match meal_names.get? p.1 with
        | some n => n
        | none => "Bữa " ++ toString (p.1 + 1)
      ("Bữa " ++ meal_name, recognize_food_with_clarifai o p.2)
    let daily_meals := daily.map fun p =>
      JVal.obj [("meal_name", .str p.1), ("foods", .list (p.2.map foodJ))]
    let meals_summary := String.intercalate "\n" (daily.map fun p =>
      "- " ++ p.1 ++ ": " ++ String.intercalate ", " (p.2.map (·.name)))
    let prompt := "Theo dõi calo cho người " ++ pyStr health_condition ++
      ".\nMục tiêu: " ++ pyStr target_calories ++ " kcal\nCác bữa ăn: " ++ meals_summary ++
      "\n\nTrả về:\n1. Tổng calo đã ăn\n2. So với mục tiêu (thiếu/thừa bao nhiêu)\n3. Phân bố dinh dưỡng\n4. Gợi ý điều chỉnh"
    match call_openai_vision o prompt imgs 2000 with
    | .error e => .error e
    | .ok tracking =>
      .ok (.obj [("daily_meals", .list daily_meals),
        ("tracking", .str tracking),
        ("target_calories", target_calories)])

/-- Embedding of `internal_quick_scan` (AI.py 462-467). -/
def internal_quick_scan (o : Oracles) (image : JVal) : Except String JVal :=
  let detected := recognize_food_with_clarifai o image
  match detected with
  | [] => .ok (errObj "Không nhận diện được món ăn")
  | _ =>
    .ok (.obj [("detected_foods", .list (detected.map foodJ)),
      ("total", .int (detected.length : ℤ))])

/-- Embedding of `internal_meal_suggestion` (AI.py 470-480). -/
def internal_meal_suggestion (o : Oracles)
    (meal_time health_condition dietary_preferences budget_range cooking_time : JVal) :
    Except String JVal :=
  let prompt := "Gợi ý thực đơn bữa " ++ pyStr meal_time ++ ":\n- Sức khỏe: " ++
    pyStr health_condition ++ "\n- Sở thích: " ++ pyStr dietary_preferences ++
    "\n- Ngân sách: " ++ pyStr budget_range ++ "\n- Thời gian: " ++ pyStr cooking_time ++
    "\n\nTrả về: 2-3 món Việt phù hợp, lý do chọn, cách làm đơn giản, ước tính calo"
  match call_openai_text o prompt "gpt-4o" 1200 with
  | .error e => .error e
  | .ok result => .ok (.obj [("suggestion", .str result), ("meal_time", meal_time)])

/-- Embedding of `internal_weekly_menu` (AI.py 483-493). -/
def internal_weekly_menu (o : Oracles)
    (health_condition dietary_preferences budget_range cooking_time : JVal) :
    Except String JVal :=
  let prompt := "Lập thực đơn 7 ngày:\n- Sức khỏe: " ++ pyStr health_condition ++
    "\n- Sở thích: " ++ pyStr dietary_preferences ++ "\n- Ngân sách: " ++
    pyStr budget_range ++ "/ngày\n- Thời gian: " ++ pyStr cooking_time ++
    "\n\nFormat: Thứ 2-CN với 3 bữa/ngày + calo"
  match call_openai_text o prompt "gpt-4o" 2500 with
  | .error e => .error e
  | .ok result => .ok (.obj [("menu", .str result), ("duration", .str "7 ngày")])

/-- Embedding of `internal_detailed_recipes` (AI.py 496-505). -/
def internal_detailed_recipes (o : Oracles)
    (days health_condition dietary_preferences budget_range : JVal) :
    Except String JVal :=
  let prompt := "Tạo công thức chi tiết " ++ pyStr days ++ " ngày:\n- Sức khỏe: " ++
    pyStr health_condition ++ "\n- Sở thích: " ++ pyStr dietary_preferences ++
    "\n- Ngân sách: " ++ pyStr budget_range ++
    "\n\nMỗi món: nguyên liệu, bước làm, calo, chi phí"
  match call_openai_text o prompt "gpt-4o" 3000 with
  | .error e => .error e
  | .ok result => .ok (.obj [("recipes", .str result), ("days", days)])

/-! ### Dispatcher (execute_function, AI.py 328-371) -/

/-- The capability names registered in the dispatch chain. -/
def registeredNames : List String :=
  ["analyze_food", "compare_foods", "track_calories", "quick_scan",
   "meal_suggestion", "weekly_menu", "detailed_recipes"]

/-- The body of the dispatcher `try` (AI.py 329-369): look up the capability
by name, fill defaults via `params.get`, and invoke it.  An unknown name
RETURNS the structured error (no exception).  `params.get` on a non-dict
raises, which the surrounding `try` converts. -/
def dispatchOp (o : Oracles) (function_name : JVal) (params : JVal) :
    Except String JVal :=
  match function_name with
  | .str s =>
    if s = "analyze_food" then do
      internal_analyze_food o (← jGetDE params "image" .null)
        (← jGetDE params "health_condition" (.str "khỏe mạnh"))
        (← jGetDE params "dietary_goals" (.str "duy trì cân nặng"))
    else if s = "compare_foods" then do
      internal_compare_foods o (← jGetDE params "images" .null)
        (← jGetDE params "health_condition" (.str "khỏe mạnh"))
    else if s = "track_calories" then do
      internal_track_calories o (← jGetDE params "images" .null)
        (← jGetDE params "target_calories" (.int 2000))
        (← jGetDE params "health_condition" (.str "khỏe mạnh"))
    else if s = "quick_scan" then do
      internal_quick_scan o (← jGetDE params "image" .null)
    else if s = "meal_suggestion" then do
      internal_meal_suggestion o (← jGetDE params "meal_time" (.str "trưa"))
        (← jGetDE params "health_condition" (.str "khỏe mạnh"))
        (← jGetDE params "dietary_preferences" (.str "không"))
        (← jGetDE params "budget_range" (.str "100k"))
        (← jGetDE params "cooking_time" (.str "30 phút"))
    else if s = "weekly_menu" then do
      internal_weekly_menu o (← jGetDE params "health_condition" (.str "khỏe mạnh"))
        (← jGetDE params "dietary_preferences" (.str "không"))
        (← jGetDE params "budget_range" (.str "500k"))
        (← jGetDE params "cooking_time" (.str "45 phút"))
    else if s = "detailed_recipes" then do
      internal_detailed_recipes o (← jGetDE params "days" (.int 3))
        (← jGetDE params "health_condition" (.str "khỏe mạnh"))
        (← jGetDE params "dietary_preferences" (.str "không"))
        (← jGetDE params "budget_range" (.str "500k"))
    else .ok (errObj ("Function " ++ s ++ " không tồn tại"))
  | other => .ok (errObj ("Function " ++ pyStr other ++ " không tồn tại"))

/-- Embedding of `execute_function` (AI.py 328-371): the whole dispatch body runs inside a
`try`, and any exception is converted to `{"error": str(e)}`.  The result is
always a plain value, never a raised exception. -/
def execute_function (o : Oracles) (function_name : JVal) (params : JVal) : JVal :=
  match dispatchOp o function_name params with
  | .ok v => v
  | .error e => errObj e

/-! ### Session/Profile store (the module-level dicts, AI.py 33-34)

`conversations` maps a session id to a list of turn dicts; `user_profiles`
maps a user id to a profile dict.  Both are unbounded in-memory maps. -/
structure Store where
  conversations : List (String × List JVal)
  user_profiles : List (String × JVal)

def assocLookup : List (String × α) → String → Option α
  | [], _ => none
  | (k, v) :: rest, key => if k = key then some v else assocLookup rest key

def assocSet : List (String × α) → String → α → List (String × α)
  | [], key, v => [(key, v)]
  | (k, w) :: rest, key, v =>
    if k = key then (k, v) :: rest else (k, w) :: assocSet rest key v

def lookupConv (st : Store) (sid : String) : Option (List JVal) :=
  assocLookup st.conversations sid

/-- Session creation on first reference: `if session_id not in conversations: conversations[session_id] = []`. -/
def ensureConv (st : Store) (sid : String) : Store :=
  match lookupConv st sid with
  | some _ => st
  | none => { st with conversations := st.conversations ++ [(sid, [])] }

def setConv (st : Store) (sid : String) (h : List JVal) : Store :=
  { st with conversations := assocSet st.conversations sid h }

def lookupProfile (st : Store) (uid : String) : Option JVal :=
  assocLookup st.user_profiles uid

/-! ### Intent Classifier (analyze_user_intent, AI.py 266-325) -/

/-- The hardcoded fallback decision returned when the classifier call or its
JSON parse fails (AI.py 317-325). -/
def fallbackIntent : JVal :=
  .obj [("intent", .str "chat"),
    ("confidence", .num half),
    ("suggested_params", .obj []),
    ("explanation", .str "Không thể phân tích ý định, chuyển sang chat thông thường"),
    ("alternative_actions", .list []),
    ("missing_info", .list []),
    ("next_suggestions", .list [])]

/-- Markdown-fence extraction before the JSON parse (AI.py 307-310):
`split("```json")[1].split("```")[0].strip()`, falling back to a plain
triple-backtick split, else the raw text. -/
def extractJson (s : String) : String :=
  if h : ("```json".data ≠ ([] : List Char)) then
    if (splitOnStr "```json" s h).length > 1 then
      have h3 : ("```".data ≠ ([] : List Char)) := by simp
      pyStrip ((splitOnStr "```" ((splitOnStr "```json" s h).getD 1 "") h3).getD 0 "")
    else
      have h3 : ("```".data ≠ ([] : List Char)) := by simp
      if (splitOnStr "```" s h3).length > 1 then
        pyStrip ((splitOnStr "```"
          ((splitOnStr "```" s h3).getD 1 "") h3).getD 0 "")
      else s
  else s

/-- Response handling of the classifier (AI.py 305-325): strip the raw
completion, extract a fenced JSON block, parse; any failure (of the call or
of the parse) yields the fixed fallback decision.  The parsed value is
returned unvalidated, exactly as `json.loads` produces it. -/
def processIntentResponse (parse : String → Option JVal)
    (resp : Except String String) : JVal :=
  match resp with
  | .error _ => fallbackIntent
  | .ok raw =>
    match parse (extractJson (pyStrip raw)) with
    | some v => v
    | none => fallbackIntent

/-- Embedding of `analyze_user_intent` (AI.py 266-325).  The prompt embeds the message,
the image count and `conversation_history[-3:]` (line 273); the completion
call is the `intentLLM` oracle. -/
def analyze_user_intent (o : Oracles) (message : String) (images : List JVal)
    (conversation_history : List JVal) : JVal :=
  processIntentResponse o.parse
    (o.intentLLM message images (lastN 3 conversation_history))

/-! ### Agent endpoint (ai_agent, AI.py 508-748)

The JSON body destructuring (lines 655-660) is absorbed into the
`AgentRequest` record: `message` arrives already stripped, `images` as a
list, `auto_execute` as its truthiness, `user_id` as the id when present
and truthy.  `session_id` defaults to a fresh uuid, supplied by the caller
of the model. -/
structure AgentRequest where
  message : String
  images : List JVal
  session_id : String
  user_id : Option String
  auto_execute : Bool

/-- HTTP-level outcomes: 200, 400, or the generic 500 produced by the
route-level `except`. -/
inductive HttpResponse where
  | ok (body : JVal)
  | badRequest (body : JVal)
  | serverError (body : JVal)

/-- Profile overlay (AI.py 675-679): when a profile was found and is truthy,
fill `health_condition` and `target_calories` into the suggested params
unless already present. -/
def overlayProfile (profile : Option JVal) (sp : JVal) : Except String JVal :=
  match profile with
  | none => .ok sp
  | some prof =>
    if jTruthy prof then
      let step1 : Except String JVal :=
        if jHasKeyB sp "health_condition" then .ok sp
        else
          match jGetDE prof "health_condition" (.str "khỏe mạnh") with
          | .error e => .error e
          | .ok hv => setField sp "health_condition" hv
      match step1 with
      | .error e => .error e
      | .ok sp1 =>
        if jHasKeyB sp1 "target_calories" then .ok sp1
        else
          match jGetDE prof "target_calories" (.int 2000) with
          | .error e => .error e
          | .ok tv => setField sp1 "target_calories" tv
    else .ok sp

/-- Image parameter filling (AI.py 681-685): with images attached, single-
image intents receive `images[0]`, multi-image intents the whole list. -/
def applyImages (ia : JVal) (images : List JVal) (sp : JVal) : Except String JVal :=
  match images with
  | [] => .ok sp
  | img0 :: _ => do
    match ← jIndex ia "intent" with
    | .str "analyze_food" | .str "quick_scan" => setField sp "image" img0
    | .str "compare_foods" | .str "track_calories" =>
      setField sp "images" (.list images)
    | _ => .ok sp

/-- Result computation under `auto_execute` (AI.py 687-698): with a truthy
`missing_info` the capability is NOT invoked and a `need_more_info`
placeholder is produced instead; otherwise the dispatcher runs. -/
def agentResult (o : Oracles) (auto_execute : Bool) (ia : JVal) (sp : JVal) :
    Except String (Option JVal) :=
  if auto_execute then do
    let missing ← jGetDE ia "missing_info" (.list [])
    if jTruthy missing then do
      let m ← pyJoin ", " missing
      pure (some (.obj [("status", .str "need_more_info"),
        ("message", .str ("Tôi cần thêm thông tin: " ++ m))]))
    else do
      let iname ← jIndex ia "intent"
      pure (some (execute_function o iname sp))
  else pure none

/-- Follow-up suggestions (AI.py 700-719). -/
def computeSuggestions (ia : JVal) (result : Option JVal) : Except String JVal :=
  let fallbackSug : Except String JVal :=
    jGetDE ia "next_suggestions" (.list
      [.str "🤔 Bạn có thể cho tôi biết thêm chi tiết không?",
       .str "📸 Hoặc gửi ảnh để tôi phân tích chi tiết hơn?"])
  match result with
  | none => fallbackSug
  | some r =>
    if jTruthy r && !(jHasKeyB r "error") then do
      match ← jIndex ia "intent" with
      | .str "analyze_food" => pure (.list
          [.str "💡 Bạn có muốn so sánh với món khác không?",
           .str "📊 Hoặc tôi có thể tạo thực đơn tuần dựa trên món này?",
           .str "🍽️ Muốn biết cách làm món này tốt hơn cho sức khỏe?"])
      | .str "meal_suggestion" => pure (.list
          [.str "📅 Bạn có muốn tôi lập thực đơn cả tuần không?",
           .str "📖 Hoặc tôi có thể đưa công thức chi tiết?",
           .str "🎯 Muốn điều chỉnh theo mục tiêu cụ thể?"])
      | _ => pure (.list [])
    else fallbackSug

/-- Option embedded as JSON (`None` becomes `null` in the response). -/
def optJ : Option JVal → JVal
  | none => .null
  | some v => v

/-- The success path of the agent route after the intent analysis
(AI.py 673-745).  Returns the response body and the updated history, or the
message of the exception that the route-level `except` turns into a 500. -/
def agentBody (o : Oracles) (req : AgentRequest) (history : List JVal)
    (ia : JVal) (profile : Option JVal) : Except String (JVal × List JVal) := do
  let sp0 ← jGetDE ia "suggested_params" (.obj [])
  let sp1 ← overlayProfile profile sp0
  let sp2 ← applyImages ia req.images sp1
  let result ← agentResult o req.auto_execute ia sp2
  let suggestions ← computeSuggestions ia result
  let iname ← jIndex ia "intent"
  let iconf ← jIndex ia "confidence"
  let iexpl ← jIndex ia "explanation"
  let alts ← jGetDE ia "alternative_actions" (.list [])
  let miss ← jGetDE ia "missing_info" (.list [])
  let newHistory := history ++
    [.obj [("role", .str "user"), ("content", .str req.message),
       ("has_images", .bool (decide (0 < req.images.length)))],
     .obj [("role", .str "assistant"), ("intent", iname), ("result", optJ result)]]
  let body := JVal.obj [
    ("success", .bool true),
    ("session_id", .str req.session_id),
    ("intent_analysis", .obj [("intent", iname), ("confidence", iconf),
       ("explanation", iexpl), ("alternative_actions", alts),
       ("missing_info", miss)]),
    ("result", optJ result),
    ("suggestions", suggestions),
    ("executed", .bool (req.auto_execute && result.isSome))]
  pure (body, newHistory)

/-- The `/api/agent` handler (AI.py 654-748).  An empty message is a 400;
the session entry is created before anything can fail; exceptions inside the
body surface as a 500 (with the session entry retained; the model commits
the history append only on success, a simplification of the partially-
mutated failure states that no claim touches). -/
def ai_agent (o : Oracles) (req : AgentRequest) (st : Store) :
    HttpResponse × Store :=
  if req.message = "" then
    (.badRequest (errObj "Tin nhắn không được để trống"), st)
  else
    let st1 := ensureConv st req.session_id
    let history := (lookupConv st1 req.session_id).getD []
    let profile := req.user_id.bind (lookupProfile st1)
    let ia := analyze_user_intent o req.message req.images history
    match agentBody o req history ia profile with
    | .ok (body, newHistory) => (.ok body, setConv st1 req.session_id newHistory)
    | .error e => (.serverError (errObj e), st1)

/-! ### Chat endpoint (chat, AI.py 1148-1183) -/

structure ChatRequest where
  message : String
  session_id : String
  use_agent : Bool

/-- The system prompt installed on every chat completion (AI.py 36-71). -/
def AGENT_SYSTEM_PROMPT : String :=
  "Bạn là AI Agent dinh dưỡng thông minh của Việt Nam với khả năng:\n\n🤖 NHIỆM VỤ CHÍNH:\n- Phân tích ý định người dùng từ câu hỏi/yêu cầu\n- Tự động gợi ý chức năng phù hợp nhất\n- Thực hiện nhiều tác vụ liên tiếp nếu cần\n- Học từ ngữ cảnh hội thoại\n\n🎯 CÁC CHỨC NĂNG KHẢ DỤNG:\n1. analyze_food - Phân tích món ăn từ ảnh\n2. compare_foods - So sánh nhiều món ăn\n3. track_calories - Theo dõi calo trong ngày\n4. quick_scan - Quét nhanh nhận diện món\n5. meal_suggestion - Gợi ý món cho 1 bữa\n6. weekly_menu - Lập thực đơn tuần\n7. detailed_recipes - Công thức nấu chi tiết\n8. chat - Tư vấn tự do\n\n📋 QUY TẮC PHÂN TÍCH Ý ĐỊNH:\n- Nếu có ảnh → ưu tiên analyze_food hoặc quick_scan\n- Nếu nhiều ảnh → compare_foods hoặc track_calories\n- Nếu hỏi về thực đơn → meal_suggestion hoặc weekly_menu\n- Nếu hỏi công thức → detailed_recipes\n- Nếu chat thông thường → chat\n\n🔄 KHẢ NĂNG TỰ ĐỘNG:\n- Phát hiện thiếu thông tin và hỏi lại\n- Gợi ý bước tiếp theo sau mỗi tác vụ\n- Kết hợp nhiều chức năng nếu phù hợp\n- Học preferences người dùng\n\n💡 PHONG CÁCH:\n- Thân thiện, chủ động gợi ý\n- Giải thích lý do chọn chức năng\n- Đưa ra nhiều lựa chọn cho user\n- Ưu tiên món ăn Việt Nam"

/-- The message list sent to the chat completion (AI.py 1164-1166): the
system prompt, then `history[-10:]`, then the new user message. -/
def buildChatMessages (history : List JVal) (message : String) : List JVal :=
  .obj [("role", .str "system"), ("content", .str AGENT_SYSTEM_PROMPT)] ::
  (lastN 10 history ++ [.obj [("role", .str "user"), ("content", .str message)]])

/-- The `/api/chat` handler (AI.py 1148-1183).  With `use_agent` the request
is handed to the agent handler (modelled for bodies carrying only the chat
fields, so the agent-side defaults apply). -/
def chat (o : Oracles) (req : ChatRequest) (st : Store) : HttpResponse × Store :=
  if req.message = "" then
    (.badRequest (errObj "Tin nhắn không được để trống"), st)
  else if req.use_agent then
    ai_agent o ⟨req.message, [], req.session_id, none, true⟩ st
  else
    let st1 := ensureConv st req.session_id
    let history := (lookupConv st1 req.session_id).getD []
    match o.chatLLM (buildChatMessages history req.message) with
    | .error e => (.serverError (errObj e), st1)
    | .ok raw =>
      let bot_reply := pyStrip raw
      let newHistory := history ++
        [.obj [("role", .str "user"), ("content", .str req.message)],
         .obj [("role", .str "assistant"), ("content", .str bot_reply)]]
      (.ok (.obj [("reply", .str bot_reply), ("session_id", .str req.session_id)]),
        setConv st1 req.session_id newHistory)

/-! ### Comparison endpoint (compare_foods route, AI.py 1347-1358) -/

/-- The `/api/compare-foods` handler: fewer than 2 images is rejected with a
400 before the capability runs; otherwise the capability result is merged
under `success: true`, and exceptions become a 500. -/
def compare_foods_route (o : Oracles) (data : JVal) : HttpResponse :=
  match jGetDE data "images" (.list []) with
  | .error e => .serverError (errObj e)
  | .ok imagesVal =>
    let count : Option Nat := match imagesVal with
      | .list l => some l.length
      | .str s => some s.data.length
      | .obj fields => some fields.length
      | _ => none
    match count with
    | none => .serverError (errObj "TypeError: object has no len()")
    | some n =>
      if n < 2 then .badRequest (errObj "Cần ít nhất 2 ảnh")
      else
        match jGetDE data "health_condition" (.str "khỏe mạnh") with
        | .error e => .serverError (errObj e)
        | .ok hc =>
          match internal_compare_foods o imagesVal hc with
          | .error e => .serverError (errObj e)
          | .ok (.obj fields) => .ok (.obj (("success", .bool true) :: fields))
          | .ok v => .ok v

/-- A state-passing view of the dispatcher: `execute_function` reads neither
the conversation map nor the profile map (its Python body references no
module-level state besides the external clients, which are the oracles), so
threading the store leaves it untouched. -/
def execute_function_with_store (o : Oracles) (function_name params : JVal)
    (st : Store) : JVal × Store :=
  (execute_function o function_name params, st)

/-! ## Helper lemmas -/

theorem except_bind_ok (a : α) (f : α → Except String β) :
    (Except.ok a : Except String α) >>= f = f a := rfl

theorem dedupFirst_firstSeen (l : List Food) (seen : List String) (f : Food)
    (hf : f ∈ dedupFirst seen l) :
    f.name ∉ seen ∧ l.find? (fun g => g.name == f.name) = some f := by
  induction l generalizing seen with
  | nil => simp [dedupFirst] at hf
  | cons g rest ih =>
    rw [dedupFirst] at hf
    by_cases hg : g.name ∈ seen
    · rw [if_pos hg] at hf
      obtain ⟨hns, hfind⟩ := ih seen hf
      refine ⟨hns, ?_⟩
      rw [List.find?_cons_of_neg, hfind]
      simp only [beq_iff_eq]
      intro h
      exact hns (h ▸ hg)
    · rw [if_neg hg] at hf
      rcases List.mem_cons.mp hf with hf | hf
      · subst hf
        exact ⟨hg, List.find?_cons_of_pos _ (by simp)⟩
      · obtain ⟨hns, hfind⟩ := ih (g.name :: seen) hf
        have hne : ¬(g.name = f.name) := fun h => hns (h ▸ List.mem_cons_self _ _)
        refine ⟨fun h => hns (List.mem_cons_of_mem _ h), ?_⟩
        rw [List.find?_cons_of_neg, hfind]
        simp only [beq_iff_eq]
        exact hne

theorem dedupFirst_sublist (l : List Food) (seen : List String) :
    List.Sublist (dedupFirst seen l) l := by
  induction l generalizing seen with
  | nil => simp [dedupFirst]
  | cons g rest ih =>
    rw [dedupFirst]
    by_cases hg : g.name ∈ seen
    · rw [if_pos hg]; exact (ih seen).cons g
    · rw [if_neg hg]; exact (ih (g.name :: seen)).cons₂ g

theorem dedupFirst_names_nodup (l : List Food) (seen : List String) :
    (dedupFirst seen l).Pairwise (fun a b => a.name ≠ b.name) := by
  induction l generalizing seen with
  | nil => simp [dedupFirst]
  | cons g rest ih =>
    rw [dedupFirst]
    by_cases hg : g.name ∈ seen
    · rw [if_pos hg]; exact ih seen
    · rw [if_neg hg]
      refine List.Pairwise.cons ?_ (ih (g.name :: seen))
      intro b hb hEq
      exact (dedupFirst_firstSeen rest (g.name :: seen) b hb).1
        (hEq ▸ List.mem_cons_self _ _)

/-! ## Claim C5: recognition failures are swallowed into the empty list -/

/-- Claim C5: every failure of the recognition call (transport/auth/protocol
error, or a non-success status code) makes the adapter return the empty
list, and a successful response can also yield the empty list, so failures
are indistinguishable from an image with no detected food. -/
theorem recognition_failures_swallowed :
    (∀ e, processResponse (.error e) = []) ∧
    (∀ r : ClarifaiResponse, r.statusCode ≠ SUCCESS_CODE →
      processResponse (.ok r) = []) ∧
    (∀ (o : Oracles) (img e : String), o.clarifai (stripDataUri img) = .error e →
      recognize_food_with_clarifai o (.str img) = []) ∧
    (∃ r : ClarifaiResponse, r.statusCode = SUCCESS_CODE ∧
      processResponse (.ok r) = []) := by
  refine ⟨fun e => rfl, fun r h => ?_, fun o img e h => ?_, ⟨⟨SUCCESS_CODE, []⟩, rfl, rfl⟩⟩
  · simp only [processResponse]
    rw [if_pos h]
  · simp only [recognize_food_with_clarifai]
    rw [h]
    rfl

/-- A confidence of 0.9 (as an explicitly reduced rational). -/
def conf09 : ℚ := ⟨9, 10, by decide, by decide⟩

/-- A confidence of 0.3. -/
def conf03 : ℚ := ⟨3, 10, by decide, by decide⟩

/-- A confidence of 0.8. -/
def conf08 : ℚ := ⟨4, 5, by decide, by decide⟩

/-- A response whose call failed at the service level (non-success status)
even though concepts were attached. -/
def respFailStatus : ClarifaiResponse :=
  ⟨10020, [⟨[⟨[⟨"apple", conf09⟩]⟩]⟩]⟩

/-- Witness for C5: a concrete failed-status response and a concrete
successful empty response both map to the empty list. -/
theorem recognition_failures_swallowed_witness :
    processResponse (.ok respFailStatus) = [] ∧
    processResponse (.ok ⟨SUCCESS_CODE, [⟨[⟨[]⟩]⟩]⟩) = [] :=
  ⟨recognition_failures_swallowed.2.1 respFailStatus (by decide), rfl⟩

/-! ## Claim C6 (corrected): duplicate labels keep the first-seen-after-
filter confidence, not the first occurrence of the raw traversal -/

/-- The outputs of a response in which the label `apple` occurs twice, first
with confidence 0.3 and then with confidence 0.9. -/
def dupOutputs : List COutput := [⟨[⟨"apple", conf03⟩, ⟨"apple", conf09⟩]⟩]

/-- Counterexample to C6 as stated: with concepts `apple@0.3` then
`apple@0.9`, the first occurrence of the label in the response traversal
carries 0.3, but the adapter keeps the confidence of the 0.9 occurrence
(the 0.3 one is removed by the threshold filter before deduplication), so
the kept confidence (90.0) is not the first-occurrence confidence (30.0). -/
theorem dedup_counterexample :
    processResponse (.ok ⟨SUCCESS_CODE, [⟨dupOutputs⟩]⟩) =
      [⟨"apple", pctOf conf09⟩] ∧
    (dupOutputs.flatMap COutput.concepts).find? (fun c => c.name == "apple") =
      some ⟨"apple", conf03⟩ ∧
    pctOf conf03 = 30 ∧ pctOf conf09 = 90 ∧ pctOf conf03 ≠ pctOf conf09 := by
  have h3 : conf03 = 3/10 := by
    rw [conf03, Rat.mk'_eq_divInt]; norm_num [Rat.divInt_eq_div]
  have h9 : conf09 = 9/10 := by
    rw [conf09, Rat.mk'_eq_divInt]; norm_num [Rat.divInt_eq_div]
  have p3 : pctOf conf03 = 30 := by
    rw [h3]
    norm_num [pctOf, round2, roundHalfEven, half_eq]
  have p9 : pctOf conf09 = 90 := by
    rw [h9]
    norm_num [pctOf, round2, roundHalfEven, half_eq]
  refine ⟨rfl, rfl, p3, p9, ?_⟩
  rw [p3, p9]
  norm_num

/-- Claim C6 as amended: for a successful response, the adapter output
contains each label at most once, is an order-preserving sublist of the
filtered traversal, and the entry kept for a label is the first entry of
the filtered traversal (`detected_foods`) carrying that label — first seen
after the confidence filter wins, not first seen in the raw traversal. -/
theorem dedup_first_seen_after_filter (r : ClarifaiResponse)
    (res : WorkflowResult) (rs : List WorkflowResult)
    (hst : r.statusCode = SUCCESS_CODE) (hres : r.results = res :: rs) :
    (processResponse (.ok r)).Pairwise (fun a b => a.name ≠ b.name) ∧
    List.Sublist (processResponse (.ok r)) (detectedFoods res.outputs) ∧
    ∀ f ∈ processResponse (.ok r),
      (detectedFoods res.outputs).find? (fun g => g.name == f.name) = some f := by
  have hp : processResponse (.ok r) = dedupFirst [] (detectedFoods res.outputs) := by
    simp only [processResponse]
    rw [if_neg (by simp [hst]), hres]
  rw [hp]
  exact ⟨dedupFirst_names_nodup _ _, dedupFirst_sublist _ _,
    fun f hf => (dedupFirst_firstSeen _ _ f hf).2⟩

/-- A successful response with a duplicated label and three entries. -/
def respDupOk : ClarifaiResponse :=
  ⟨SUCCESS_CODE, [⟨[⟨[⟨"a", conf09⟩, ⟨"a", conf08⟩, ⟨"b", conf08⟩]⟩]⟩]⟩

/-- Witness for the amended C6 at a concrete duplicated-label response. -/
theorem dedup_first_seen_after_filter_witness :
    respDupOk.statusCode = SUCCESS_CODE ∧
    (processResponse (.ok respDupOk)).Pairwise (fun a b => a.name ≠ b.name) :=
  ⟨rfl, (dedup_first_seen_after_filter respDupOk ⟨[⟨[⟨"a", conf09⟩, ⟨"a", conf08⟩,
    ⟨"b", conf08⟩]⟩]⟩ [] rfl rfl).1⟩

/-! ## Claim C7: strict threshold filter at 0.5 -/

/-- Claim C7: a concept with confidence strictly above 0.5 contributes its
entry to the pre-deduplication `detected_foods` list, and every entry of
that list comes from some concept with confidence strictly above 0.5 —
values at or below the threshold are excluded, values above are included. -/
theorem threshold_filter (outputs : List COutput) :
    (∀ o ∈ outputs, ∀ c ∈ o.concepts, half < c.value →
      entryOf c ∈ detectedFoods outputs) ∧
    (∀ f ∈ detectedFoods outputs, ∃ o ∈ outputs, ∃ c ∈ o.concepts,
      half < c.value ∧ entryOf c = f) := by
  constructor
  · intro o ho c hc hv
    simp only [detectedFoods, List.mem_flatMap, List.mem_map, List.mem_filter]
    exact ⟨o, ho, c, ⟨hc, by simpa using hv⟩, rfl⟩
  · intro f hf
    simp only [detectedFoods, List.mem_flatMap, List.mem_map, List.mem_filter] at hf
    obtain ⟨o, ho, c, ⟨hc, hv⟩, he⟩ := hf
    exact ⟨o, ho, c, hc, by simpa using hv, he⟩

/-- Witness for C7: the 0.9-confidence concept lands in the output of a
concrete traversal, and the 0.3 one is excluded. -/
theorem threshold_filter_witness :
    half < conf09 ∧
    entryOf ⟨"apple", conf09⟩ ∈ detectedFoods [⟨[⟨"apple", conf03⟩, ⟨"apple", conf09⟩]⟩] :=
  ⟨by decide, (threshold_filter [⟨[⟨"apple", conf03⟩, ⟨"apple", conf09⟩]⟩]).1
    ⟨[⟨"apple", conf03⟩, ⟨"apple", conf09⟩]⟩ (by simp)
    ⟨"apple", conf09⟩ (by simp) (by decide)⟩

/-! ## Claim C1: the dispatcher never throws and structures every error -/

/-- Claim C1: the dispatcher always returns a value.  An unregistered
capability name yields the structured unknown-function error; an exception
raised by the invoked operation (an `.error` of the dispatch body) is
converted to `{error: message}`; a normal operation result is passed
through unchanged.  No exception crosses the dispatch boundary. -/
theorem dispatcher_total_and_structured (o : Oracles) (function_name params : JVal) :
    (function_name ∉ registeredNames.map JVal.str →
      execute_function o function_name params =
        errObj ("Function " ++ pyStr function_name ++ " không tồn tại")) ∧
    (∀ e, dispatchOp o function_name params = .error e →
      execute_function o function_name params = errObj e) ∧
    (∀ v, dispatchOp o function_name params = .ok v →
      execute_function o function_name params = v) := by
  refine ⟨?_, ?_, ?_⟩
  · intro h
    cases function_name with
    | str s =>
      simp only [registeredNames, List.map_cons, List.map_nil, List.mem_cons,
        List.not_mem_nil, or_false, not_or, JVal.str.injEq] at h
      obtain ⟨h1, h2, h3, h4, h5, h6, h7⟩ := h
      simp only [execute_function, dispatchOp, pyStr,
        if_neg h1, if_neg h2, if_neg h3, if_neg h4, if_neg h5, if_neg h6, if_neg h7]
    | null => rfl
    | bool b => rfl
    | int n => rfl
    | num q => rfl
    | list l => rfl
    | obj fields => rfl
  · intro e he
    simp only [execute_function, he]
  · intro v hv
    simp only [execute_function, hv]

/-- An oracle bundle whose external services are all unavailable. -/
def oraclesDummy : Oracles :=
  { clarifai := fun _ => .error "service unavailable"
    vision := fun _ _ _ => .error "service unavailable"
    text := fun _ _ _ => .error "service unavailable"
    intentLLM := fun _ _ _ => .error "service unavailable"
    chatLLM := fun _ => .error "service unavailable"
    parse := fun _ => none }

/-- Witness for C1 at the unknown capability name `nope`. -/
theorem dispatcher_total_and_structured_witness :
    (JVal.str "nope" ∉ registeredNames.map JVal.str) ∧
    execute_function oraclesDummy (.str "nope") (.obj []) =
      errObj ("Function " ++ pyStr (.str "nope") ++ " không tồn tại") :=
  ⟨by simp [registeredNames],
   (dispatcher_total_and_structured oraclesDummy (.str "nope") (.obj [])).1
     (by simp [registeredNames])⟩

/-! ## Claim C9: the dispatcher is a pure function of its arguments -/

/-- Claim C9: with the external services fixed (the oracle bundle), the
dispatcher result is determined entirely by the capability name and the
parameter bag: it is independent of the store, leaves the store untouched,
and a second invocation after the first yields the identical result. -/
theorem dispatcher_idempotent (o : Oracles) (function_name params : JVal)
    (st st' : Store) :
    (execute_function_with_store o function_name params st).1 =
      (execute_function_with_store o function_name params st').1 ∧
    (execute_function_with_store o function_name params st).2 = st ∧
    (execute_function_with_store o function_name params
        (execute_function_with_store o function_name params st).2).1 =
      (execute_function_with_store o function_name params st).1 :=
  ⟨rfl, rfl, rfl⟩

/-! ## Claim C2: classifier failures fall back to the fixed chat decision -/

/-- Claim C2: when the classifier generation call fails, or succeeds with
text whose extracted payload does not parse as JSON, `analyze_user_intent`
returns the fixed fallback decision: intent `chat`, confidence 0.5, empty
`missing_info` and `alternative_actions`.  No exception escapes. -/
theorem classifier_fallback (o : Oracles) (message : String)
    (images conversation_history : List JVal) :
    (∀ e, o.intentLLM message images (lastN 3 conversation_history) = .error e →
      analyze_user_intent o message images conversation_history = fallbackIntent) ∧
    (∀ t, o.intentLLM message images (lastN 3 conversation_history) = .ok t →
      o.parse (extractJson (pyStrip t)) = none →
      analyze_user_intent o message images conversation_history = fallbackIntent) ∧
    jGetDE fallbackIntent "intent" .null = .ok (.str "chat") ∧
    jGetDE fallbackIntent "confidence" .null = .ok (.num half) ∧
    jGetDE fallbackIntent "missing_info" .null = .ok (.list []) ∧
    jGetDE fallbackIntent "alternative_actions" .null = .ok (.list []) := by
  refine ⟨fun e he => ?_, fun t ht hp => ?_, rfl, rfl, rfl, rfl⟩
  · simp only [analyze_user_intent, he, processIntentResponse]
  · simp only [analyze_user_intent, ht, processIntentResponse, hp]

/-- An oracle bundle whose classifier completion returns non-JSON text. -/
def oraclesBadJson : Oracles :=
  { oraclesDummy with
    intentLLM := fun _ _ _ => .ok "this is not json"
    parse := fun _ => none }

/-- Witness for C2: with a completion that does not parse, the classifier
returns the fallback decision. -/
theorem classifier_fallback_witness :
    oraclesBadJson.intentLLM "hello" [] (lastN 3 []) = .ok "this is not json" ∧
    analyze_user_intent oraclesBadJson "hello" [] [] = fallbackIntent :=
  ⟨rfl, (classifier_fallback oraclesBadJson "hello" [] []).2.1
    "this is not json" rfl rfl⟩

/-! ## Store lemmas -/

theorem assocLookup_append_none (l : List (String × α)) (k : String) (v : α)
    (h : assocLookup l k = none) : assocLookup (l ++ [(k, v)]) k = some v := by
  induction l with
  | nil => simp [assocLookup]
  | cons p rest ih =>
    obtain ⟨pk, pv⟩ := p
    simp only [assocLookup] at h
    simp only [List.cons_append, assocLookup]
    by_cases hpk : pk = k
    · rw [if_pos hpk] at h
      exact absurd h (by simp)
    · rw [if_neg hpk] at h ⊢
      exact ih h

theorem assocLookup_assocSet (l : List (String × α)) (k : String) (v : α) :
    assocLookup (assocSet l k v) k = some v := by
  induction l with
  | nil => simp [assocSet, assocLookup]
  | cons p rest ih =>
    obtain ⟨pk, pv⟩ := p
    simp only [assocSet]
    by_cases hpk : pk = k
    · rw [if_pos hpk]
      simp [assocLookup, hpk]
    · rw [if_neg hpk]
      simp only [assocLookup]
      rw [if_neg hpk]
      exact ih

theorem lookupConv_setConv (st : Store) (sid : String) (h : List JVal) :
    lookupConv (setConv st sid h) sid = some h :=
  assocLookup_assocSet _ _ _

theorem ensureConv_of_some (st : Store) (sid : String) (l : List JVal)
    (h : lookupConv st sid = some l) : ensureConv st sid = st := by
  unfold ensureConv
  rw [h]

theorem lookupConv_ensure (st : Store) (sid : String) :
    lookupConv (ensureConv st sid) sid = some ((lookupConv st sid).getD []) := by
  unfold ensureConv
  cases h : lookupConv st sid with
  | some l => simp [h]
  | none =>
    simp only [Option.getD_none]
    exact assocLookup_append_none _ _ _ h

theorem ensureConv_profiles (st : Store) (sid : String) :
    (ensureConv st sid).user_profiles = st.user_profiles := by
  unfold ensureConv
  cases lookupConv st sid <;> rfl

/-! ## Claim C4 (corrected): context windows are 10 for chat, 3 for the
classifier; older turns stay stored -/

/-- An eleven-turn history with distinguishable entries. -/
def h11 : List JVal := (List.range 11).map fun i => JVal.int i

/-- An oracle bundle whose classifier completion fails exactly when the
history slice it receives has three entries, and parses to the empty object
otherwise. -/
def oraclesLen3 : Oracles :=
  { oraclesDummy with
    intentLLM := fun _ _ hist => if hist.length = 3 then .error "three" else .ok "x"
    parse := fun _ => some (.obj []) }

/-- Counterexample to C4 as stated: on an 11-entry history the Intent
Classifier passes exactly the last 3 entries to the generation call (the
probing oracle fails on 3-entry slices, so the classifier lands in the
fallback), while a 10-entry slice would have produced the parsed object. -/
theorem context_window_counterexample :
    h11.length = 11 ∧
    analyze_user_intent oraclesLen3 "m" [] h11 = fallbackIntent ∧
    processIntentResponse oraclesLen3.parse
      (oraclesLen3.intentLLM "m" [] (lastN 10 h11)) = .obj [] ∧
    fallbackIntent ≠ JVal.obj [] := by
  refine ⟨rfl, rfl, rfl, ?_⟩
  intro hEq
  have hfields := congrArg (fun v => jGetDE v "intent" .null) hEq
  simp [jGetDE, fallbackIntent, lookupField] at hfields

/-- Claim C4 as amended: on histories longer than 10 turns the chat endpoint
builds its context from exactly the 10 most recent entries, the Intent
Classifier from exactly the 3 most recent entries, and a successful chat
round appends to the stored history without truncating it (older entries
remain stored but unread). -/
theorem context_window_amended (h : List JVal) (m : String) (hlen : 10 < h.length) :
    ((lastN 10 h).length = 10 ∧ lastN 10 h <:+ h ∧
      buildChatMessages h m =
        (.obj [("role", .str "system"), ("content", .str AGENT_SYSTEM_PROMPT)]) ::
        (lastN 10 h ++ [.obj [("role", .str "user"), ("content", .str m)]])) ∧
    ((lastN 3 h).length = 3 ∧ lastN 3 h <:+ h ∧
      ∀ (o : Oracles) (imgs : List JVal), analyze_user_intent o m imgs h =
        processIntentResponse o.parse (o.intentLLM m imgs (lastN 3 h))) ∧
    (∀ (o : Oracles) (st : Store) (sid raw : String), m ≠ "" →
      lookupConv st sid = some h →
      o.chatLLM (buildChatMessages h m) = .ok raw →
      lookupConv (chat o ⟨m, sid, false⟩ st).2 sid =
        some (h ++ [.obj [("role", .str "user"), ("content", .str m)],
          .obj [("role", .str "assistant"), ("content", .str (pyStrip raw))]])) := by
  refine ⟨⟨?_, List.drop_suffix _ _, rfl⟩, ⟨?_, List.drop_suffix _ _, fun o imgs => rfl⟩, ?_⟩
  · simp only [lastN, List.length_drop]
    omega
  · simp only [lastN, List.length_drop]
    omega
  · intro o st sid raw hm hconv hllm
    simp only [chat]
    rw [if_neg hm]
    simp only [Bool.false_eq_true, if_false]
    rw [ensureConv_of_some st sid h hconv, hconv]
    simp only [Option.getD_some]
    rw [hllm]
    exact lookupConv_setConv _ _ _

/-- A twelve-turn history. -/
def h12 : List JVal := (List.range 12).map fun i => JVal.int i

/-- Witness for the amended C4 on a concrete 12-turn history. -/
theorem context_window_amended_witness :
    10 < h12.length ∧ (lastN 10 h12).length = 10 ∧ (lastN 3 h12).length = 3 :=
  ⟨by decide, ((context_window_amended h12 "hi" (by decide)).1).1,
    ((context_window_amended h12 "hi" (by decide)).2.1).1⟩

/-! ## Agent lemmas for the need_more_info path -/

/-- The placeholder produced instead of invoking the capability
(AI.py 695-698). -/
def needInfoObj (names : List String) : JVal :=
  .obj [("status", .str "need_more_info"),
    ("message", .str ("Tôi cần thêm thông tin: " ++ String.intercalate ", " names))]

theorem jTruthy_list_map_str (names : List String) (hne : names ≠ []) :
    jTruthy (.list (names.map .str)) = true := by
  cases names with
  | nil => exact absurd rfl hne
  | cons a l => rfl

theorem strItems_strs (names : List String) :
    strItems (names.map JVal.str) = .ok names := by
  induction names with
  | nil => rfl
  | cons a l ih => simp [strItems, ih]

theorem pyJoin_strs (sep : String) (names : List String) :
    pyJoin sep (.list (names.map .str)) = .ok (String.intercalate sep names) := by
  simp only [pyJoin, strItems_strs]

theorem agentResult_missing (o : Oracles) (ia sp : JVal) (names : List String)
    (hne : names ≠ [])
    (hmiss : jGetDE ia "missing_info" (.list []) = .ok (.list (names.map .str))) :
    agentResult o true ia sp = .ok (some (needInfoObj names)) := by
  simp only [agentResult, if_true, hmiss, except_bind_ok,
    jTruthy_list_map_str names hne, pyJoin_strs, needInfoObj]
  rfl

theorem analyze_congr (o o' : Oracles) (hI : o'.intentLLM = o.intentLLM)
    (hP : o'.parse = o.parse) (m : String) (imgs hist : List JVal) :
    analyze_user_intent o' m imgs hist = analyze_user_intent o m imgs hist := by
  simp only [analyze_user_intent, hI, hP]

/-- The response body assembled on the need_more_info path. -/
def needInfoBody (req : AgentRequest) (names : List String)
    (sugg iname iconf iexpl alts : JVal) : JVal :=
  .obj [("success", .bool true), ("session_id", .str req.session_id),
    ("intent_analysis", .obj [("intent", iname), ("confidence", iconf),
      ("explanation", iexpl), ("alternative_actions", alts),
      ("missing_info", .list (names.map .str))]),
    ("result", needInfoObj names),
    ("suggestions", sugg),
    ("executed", .bool true)]

/-- The two turns appended to the session on the need_more_info path. -/
def needInfoTurns (req : AgentRequest) (names : List String) (iname : JVal) :
    List JVal :=
  [.obj [("role", .str "user"), ("content", .str req.message),
    ("has_images", .bool (decide (0 < req.images.length)))],
   .obj [("role", .str "assistant"), ("intent", iname),
    ("result", needInfoObj names)]]

theorem agentBody_missing (o : Oracles) (req : AgentRequest) (history : List JVal)
    (ia : JVal) (profile : Option JVal) (names : List String)
    (sp0 sp1 sp2 sugg iname iconf iexpl alts : JVal)
    (hauto : req.auto_execute = true)
    (hne : names ≠ [])
    (hmiss : jGetDE ia "missing_info" (.list []) = .ok (.list (names.map .str)))
    (hsp0 : jGetDE ia "suggested_params" (.obj []) = .ok sp0)
    (hsp1 : overlayProfile profile sp0 = .ok sp1)
    (hsp2 : applyImages ia req.images sp1 = .ok sp2)
    (hsug : computeSuggestions ia (some (needInfoObj names)) = .ok sugg)
    (hin : jIndex ia "intent" = .ok iname)
    (hic : jIndex ia "confidence" = .ok iconf)
    (hie : jIndex ia "explanation" = .ok iexpl)
    (halts : jGetDE ia "alternative_actions" (.list []) = .ok alts) :
    agentBody o req history ia profile =
      .ok (needInfoBody req names sugg iname iconf iexpl alts,
        history ++ needInfoTurns req names iname) := by
  have hres := agentResult_missing o ia sp2 names hne hmiss
  simp only [agentBody, hauto, hsp0, hsp1, hsp2, hres, hsug, hin, hic, hie, halts,
    hmiss, except_bind_ok, optJ, Option.isSome_some, Bool.and_self,
    needInfoBody, needInfoTurns]
  rfl

/-- The full agent invocation on the need_more_info path: the response is a
200 whose `result` is the placeholder, and the store receives the two new
turns appended to the untouched history. -/
theorem ai_agent_missing (o : Oracles) (req : AgentRequest) (st : Store)
    (ia : JVal) (names : List String)
    (sp0 sp1 sp2 sugg iname iconf iexpl alts : JVal)
    (hmsg : req.message ≠ "")
    (hia : analyze_user_intent o req.message req.images
      ((lookupConv st req.session_id).getD []) = ia)
    (hauto : req.auto_execute = true)
    (hne : names ≠ [])
    (hmiss : jGetDE ia "missing_info" (.list []) = .ok (.list (names.map .str)))
    (hsp0 : jGetDE ia "suggested_params" (.obj []) = .ok sp0)
    (hsp1 : overlayProfile (req.user_id.bind
      (lookupProfile (ensureConv st req.session_id))) sp0 = .ok sp1)
    (hsp2 : applyImages ia req.images sp1 = .ok sp2)
    (hsug : computeSuggestions ia (some (needInfoObj names)) = .ok sugg)
    (hin : jIndex ia "intent" = .ok iname)
    (hic : jIndex ia "confidence" = .ok iconf)
    (hie : jIndex ia "explanation" = .ok iexpl)
    (halts : jGetDE ia "alternative_actions" (.list []) = .ok alts) :
    ai_agent o req st =
      (.ok (needInfoBody req names sugg iname iconf iexpl alts),
        setConv (ensureConv st req.session_id) req.session_id
          (((lookupConv st req.session_id).getD []) ++ needInfoTurns req names iname)) := by
  simp only [ai_agent]
  rw [if_neg hmsg]
  rw [lookupConv_ensure]
  simp only [Option.getD_some]
  rw [hia]
  rw [agentBody_missing o req _ ia _ names sp0 sp1 sp2 sugg iname iconf iexpl alts
    hauto hne hmiss hsp0 hsp1 hsp2 hsug hin hic hie halts]

/-! ## Claim C3: non-empty missing_info withholds execution -/

/-- Claim C3: under auto-execute, a decision with non-empty `missing_info`
makes the agent skip the capability entirely — the response is identical
for any oracle bundle agreeing on the classifier (so the dispatcher and the
external services are never consulted) — and the `result` field is the
`need_more_info` placeholder whose message lists the missing names
verbatim, joined by a comma. -/
theorem agent_missing_info_withholds (o : Oracles) (req : AgentRequest) (st : Store)
    (ia : JVal) (names : List String)
    (sp0 sp1 sp2 sugg iname iconf iexpl alts : JVal)
    (hmsg : req.message ≠ "")
    (hia : analyze_user_intent o req.message req.images
      ((lookupConv st req.session_id).getD []) = ia)
    (hauto : req.auto_execute = true)
    (hne : names ≠ [])
    (hmiss : jGetDE ia "missing_info" (.list []) = .ok (.list (names.map .str)))
    (hsp0 : jGetDE ia "suggested_params" (.obj []) = .ok sp0)
    (hsp1 : overlayProfile (req.user_id.bind
      (lookupProfile (ensureConv st req.session_id))) sp0 = .ok sp1)
    (hsp2 : applyImages ia req.images sp1 = .ok sp2)
    (hsug : computeSuggestions ia (some (needInfoObj names)) = .ok sugg)
    (hin : jIndex ia "intent" = .ok iname)
    (hic : jIndex ia "confidence" = .ok iconf)
    (hie : jIndex ia "explanation" = .ok iexpl)
    (halts : jGetDE ia "alternative_actions" (.list []) = .ok alts) :
    (∃ body stOut, ai_agent o req st = (.ok body, stOut) ∧
      jGetDE body "result" .null = .ok (needInfoObj names) ∧
      jGetDE (needInfoObj names) "status" .null = .ok (.str "need_more_info") ∧
      jGetDE (needInfoObj names) "message" .null =
        .ok (.str ("Tôi cần thêm thông tin: " ++ String.intercalate ", " names))) ∧
    (∀ o' : Oracles, o'.intentLLM = o.intentLLM → o'.parse = o.parse →
      ai_agent o' req st = ai_agent o req st) := by
  have hmain := ai_agent_missing o req st ia names sp0 sp1 sp2 sugg iname iconf iexpl
    alts hmsg hia hauto hne hmiss hsp0 hsp1 hsp2 hsug hin hic hie halts
  refine ⟨⟨_, _, hmain, rfl, rfl, rfl⟩, fun o' hI hP => ?_⟩
  have hia2 : analyze_user_intent o' req.message req.images
      ((lookupConv st req.session_id).getD []) = ia :=
    (analyze_congr o o' hI hP req.message req.images _).trans hia
  rw [hmain, ai_agent_missing o' req st ia names sp0 sp1 sp2 sugg iname iconf iexpl
    alts hmsg hia2 hauto hne hmiss hsp0 hsp1 hsp2 hsug hin hic hie halts]

/-! ## Claim C10: executed is true even though nothing ran -/

/-- Claim C10: on the same withheld path the response nevertheless reports
`executed = true` (it is computed as `auto_execute and result is not None`,
and the placeholder is a non-null result), so `executed` does not imply a
capability ran: the response is oracle-independent beyond the classifier,
yet carries `executed = true`. -/
theorem agent_executed_true_without_run (o : Oracles) (req : AgentRequest) (st : Store)
    (ia : JVal) (names : List String)
    (sp0 sp1 sp2 sugg iname iconf iexpl alts : JVal)
    (hmsg : req.message ≠ "")
    (hia : analyze_user_intent o req.message req.images
      ((lookupConv st req.session_id).getD []) = ia)
    (hauto : req.auto_execute = true)
    (hne : names ≠ [])
    (hmiss : jGetDE ia "missing_info" (.list []) = .ok (.list (names.map .str)))
    (hsp0 : jGetDE ia "suggested_params" (.obj []) = .ok sp0)
    (hsp1 : overlayProfile (req.user_id.bind
      (lookupProfile (ensureConv st req.session_id))) sp0 = .ok sp1)
    (hsp2 : applyImages ia req.images sp1 = .ok sp2)
    (hsug : computeSuggestions ia (some (needInfoObj names)) = .ok sugg)
    (hin : jIndex ia "intent" = .ok iname)
    (hic : jIndex ia "confidence" = .ok iconf)
    (hie : jIndex ia "explanation" = .ok iexpl)
    (halts : jGetDE ia "alternative_actions" (.list []) = .ok alts) :
    (∃ body stOut, ai_agent o req st = (.ok body, stOut) ∧
      jGetDE body "executed" .null = .ok (.bool true) ∧
      jGetDE body "result" .null = .ok (needInfoObj names)) ∧
    (∀ o' : Oracles, o'.intentLLM = o.intentLLM → o'.parse = o.parse →
      ai_agent o' req st = ai_agent o req st) := by
  have hmain := ai_agent_missing o req st ia names sp0 sp1 sp2 sugg iname iconf iexpl
    alts hmsg hia hauto hne hmiss hsp0 hsp1 hsp2 hsug hin hic hie halts
  refine ⟨⟨_, _, hmain, rfl, rfl⟩, fun o' hI hP => ?_⟩
  have hia2 : analyze_user_intent o' req.message req.images
      ((lookupConv st req.session_id).getD []) = ia :=
    (analyze_congr o o' hI hP req.message req.images _).trans hia
  rw [hmain, ai_agent_missing o' req st ia names sp0 sp1 sp2 sugg iname iconf iexpl
    alts hmsg hia2 hauto hne hmiss hsp0 hsp1 hsp2 hsug hin hic hie halts]

/-! ## Concrete witnesses for C3 and C10 -/

/-- An intent decision selecting `meal_suggestion` with one missing field. -/
def iaMissing : JVal :=
  .obj [("intent", .str "meal_suggestion"), ("confidence", .num half),
    ("explanation", .str "user asks for a meal"),
    ("suggested_params", .obj []),
    ("missing_info", .list [.str "meal_time"]),
    ("alternative_actions", .list []), ("next_suggestions", .list [])]

/-- An oracle bundle whose classifier parses to `iaMissing`. -/
def oraclesMissing : Oracles :=
  { oraclesDummy with
    intentLLM := fun _ _ _ => .ok "classifier output"
    parse := fun _ => some iaMissing }

/-- The meal_suggestion follow-up list (suggestions branch of the route). -/
def suggMeal : JVal :=
  .list [.str "📅 Bạn có muốn tôi lập thực đơn cả tuần không?",
    .str "📖 Hoặc tôi có thể đưa công thức chi tiết?",
    .str "🎯 Muốn điều chỉnh theo mục tiêu cụ thể?"]

def reqMissing : AgentRequest := ⟨"gợi ý bữa ăn", [], "sess-1", none, true⟩

def stEmpty : Store := ⟨[], []⟩

/-- Witness for C3 at a concrete request with `missing_info = [meal_time]`. -/
theorem agent_missing_info_withholds_witness :
    reqMissing.auto_execute = true ∧
    (∃ body stOut, ai_agent oraclesMissing reqMissing stEmpty = (.ok body, stOut) ∧
      jGetDE body "result" .null = .ok (needInfoObj ["meal_time"]) ∧
      jGetDE (needInfoObj ["meal_time"]) "status" .null = .ok (.str "need_more_info") ∧
      jGetDE (needInfoObj ["meal_time"]) "message" .null =
        .ok (.str ("Tôi cần thêm thông tin: " ++ String.intercalate ", " ["meal_time"]))) :=
  ⟨rfl, (agent_missing_info_withholds oraclesMissing reqMissing stEmpty iaMissing
    ["meal_time"] (.obj []) (.obj []) (.obj []) suggMeal (.str "meal_suggestion")
    (.num half) (.str "user asks for a meal") (.list [])
    (by decide) rfl rfl (by decide) rfl rfl rfl rfl rfl rfl rfl rfl rfl).1⟩

/-- Witness for C10 at the same concrete request: executed is reported true. -/
theorem agent_executed_true_without_run_witness :
    reqMissing.auto_execute = true ∧
    (∃ body stOut, ai_agent oraclesMissing reqMissing stEmpty = (.ok body, stOut) ∧
      jGetDE body "executed" .null = .ok (.bool true) ∧
      jGetDE body "result" .null = .ok (needInfoObj ["meal_time"])) :=
  ⟨rfl, (agent_executed_true_without_run oraclesMissing reqMissing stEmpty iaMissing
    ["meal_time"] (.obj []) (.obj []) (.obj []) suggMeal (.str "meal_suggestion")
    (.num half) (.str "user asks for a meal") (.list [])
    (by decide) rfl rfl (by decide) rfl rfl rfl rfl rfl rfl rfl rfl rfl).1⟩

/-! ## Claim C8 (corrected): the minimum-image validation exists only on the
HTTP route, not in the dispatcher -/

/-- Claim C8 as amended, route half: the `/api/compare-foods` route rejects
fewer than 2 images with the validation error, for every oracle bundle —
the capability (and the external services) are never consulted. -/
theorem compare_route_validates (o : Oracles) (data : JVal) (imgs : List JVal)
    (himg : jGetDE data "images" (.list []) = .ok (.list imgs))
    (hlen : imgs.length < 2) :
    compare_foods_route o data = .badRequest (errObj "Cần ít nhất 2 ảnh") := by
  simp only [compare_foods_route, himg]
  rw [if_pos hlen]

/-- Witness for the amended C8 at a one-image request body. -/
theorem compare_route_validates_witness :
    ([JVal.str "img1"] : List JVal).length < 2 ∧
    compare_foods_route oraclesDummy (.obj [("images", .list [.str "img1"])]) =
      .badRequest (errObj "Cần ít nhất 2 ảnh") :=
  ⟨by decide, compare_route_validates oraclesDummy _ [JVal.str "img1"] rfl (by decide)⟩

/-- A successful single-concept recognition response. -/
def respPho : ClarifaiResponse := ⟨SUCCESS_CODE, [⟨[⟨[⟨"phở bò", conf09⟩]⟩]⟩]⟩

/-- Oracle bundle A for the comparison capability. -/
def oraclesCmpA : Oracles :=
  { oraclesDummy with
    clarifai := fun _ => .ok respPho
    vision := fun _ _ _ => .ok "comparison A" }

/-- Oracle bundle B, identical except for the vision output. -/
def oraclesCmpB : Oracles :=
  { oraclesDummy with
    clarifai := fun _ => .ok respPho
    vision := fun _ _ _ => .ok "comparison B" }

/-- A parameter bag carrying exactly one image. -/
def paramsOneImage : JVal := .obj [("images", .list [.str "img1"])]

/-- Counterexample to C8 as stated: invoking the comparison capability
through the dispatcher with a single image is NOT rejected — the capability
runs (its output tracks the vision oracle) and returns a comparison payload
with `total_foods = 1` and no `error` key. -/
theorem compare_single_image_counterexample :
    jGetDE (execute_function oraclesCmpA (.str "compare_foods") paramsOneImage)
      "error" .null = .ok .null ∧
    jGetDE (execute_function oraclesCmpA (.str "compare_foods") paramsOneImage)
      "total_foods" .null = .ok (.int 1) ∧
    jGetDE (execute_function oraclesCmpA (.str "compare_foods") paramsOneImage)
      "comparison" .null = .ok (.str "comparison A") ∧
    jGetDE (execute_function oraclesCmpB (.str "compare_foods") paramsOneImage)
      "comparison" .null = .ok (.str "comparison B") :=
  ⟨rfl, rfl, rfl, rfl⟩

end NouMeal
